import Mathlib

/-!
Shallow embedding of the Daheng camera GUI pipeline
(`src/gUI_new_tk_v3.py`, class `DahengCameraGUI`) and proofs about it.

Conventions:
* Python `int(x)` on a rational is truncation toward zero (`pyInt`).
* Pixel coordinates and image geometry are exact rationals/integers; the
  Python code computes the same scale products in IEEE doubles, and over the
  quantified ranges (display coordinates in [0,1280) x [0,720)) the double
  computation agrees with the exact rational one, so the rational model is
  faithful there.
* OpenCV contour primitives (`cv2.moments`, `cv2.contourArea`,
  `cv2.arcLength`) are embedded by the exact polygon formulas OpenCV uses
  (Green-theorem moment accumulation over the closed point sequence).
* Blocking queue operations are modelled as partial effects: `queue_push`
  returns `none` when the queue is full (the caller blocks; nothing is
  dropped), `some` with the appended list otherwise.
-/

/-- Python `int()` applied to a rational: truncation toward zero. -/
def pyInt (q : ℚ) : ℤ := if 0 ≤ q then ⌊q⌋ else ⌈q⌉

/-! ## Coordinate rescaling (process_frames, lines 176-183) -/

/-- `scale_x = 4096 / 1280` from `process_frames`. -/
def scale_x : ℚ := 4096 / 1280

/-- `scale_y = 3000 / 720` from `process_frames`. -/
def scale_y : ℚ := 3000 / 720

/-- The rescaling `process_frames` applies to a found display centroid:
`cx_original = int(cx_resized * scale_x)`, `cy_original = int(cy_resized * scale_y)`. -/
def rescale_centroid (c : ℤ × ℤ) : ℤ × ℤ :=
  (pyInt ((c.1 : ℚ) * scale_x), pyInt ((c.2 : ℚ) * scale_y))

/-- The rescaling as the spec words it: `native = round(display * scale)` in
each coordinate (stated for comparison with `rescale_centroid`). -/
def rescale_centroid_spec (c : ℤ × ℤ) : ℤ × ℤ :=
  (round ((c.1 : ℚ) * scale_x), round ((c.2 : ℚ) * scale_y))

/-- The guard `if centroid:` in `process_frames`: native coordinates are
computed exactly when the detector returned a (non-`None`) centroid,
otherwise `cx_original, cy_original = None, None`. -/
def native_centroid (centroid : Option (ℤ × ℤ)) : Option (ℤ × ℤ) :=
  match centroid with
  | some c => some (rescale_centroid c)
  | none => none

/-! ## BoundedFrameQueue (`queue.Queue(maxsize=2)`, line 24; cleared at line 145) -/

/-- A frame, abstractly (ownership token; content is irrelevant to the queue). -/
abbrev Frame := ℕ

/-- The queue capacity configured in `__init__`: `queue.Queue(maxsize=2)`. -/
def queue_maxsize : ℕ := 2

/-- Blocking `put` on the bounded queue: succeeds (appends) when a slot is
free, otherwise returns `none` — the caller blocks until room appears; the
frame is never dropped. -/
def queue_push (q : List Frame) (f : Frame) : Option (List Frame) :=
  if q.length < queue_maxsize then some (q ++ [f]) else none

/-- Blocking `get`: returns the oldest frame and the rest, or `none` when the
queue is empty (the caller blocks). -/
def queue_pop (q : List Frame) : Option (Frame × List Frame) :=
  match q with
  | [] => none
  | f :: rest => some (f, rest)

/-- `self.frame_queue.queue.clear()` (line 145): discard everything queued. -/
def queue_clear (_q : List Frame) : List Frame := []

/-! ## CentroidDetector (`calculate_centroid`, lines 218-234)

Contours are the point sequences produced by `cv2.findContours`; the OpenCV
primitives applied to them are embedded by their exact polygon formulas:
`cv2.moments` on a contour accumulates Green-theorem sums over the closed
edge sequence (`a00`, `a10`, `a01`) and sets `m00 = |a00|/2`,
`m10 = sign(a00) * a10 / 6`, `m01 = sign(a00) * a01 / 6` (all zero when
`a00 = 0`); `cv2.contourArea` is `|a00|/2`; `cv2.arcLength(closed=True)` is
the sum of Euclidean edge lengths of the closed polyline. -/

/-- A contour point (integer pixel coordinates, as `cv2.findContours` yields). -/
abbrev Point := ℤ × ℤ

/-- A contour: the point sequence of one external boundary. -/
abbrev Contour := List Point

/-- The closed edge sequence of a contour: consecutive point pairs, wrapping
from the last point back to the first. -/
def closedEdges (c : Contour) : List (Point × Point) := c.zip (c.rotate 1)

/-- Cross term of one edge, `x_i * y_j - x_j * y_i`, as accumulated by
OpenCV contour moments. -/
def crossTerm (e : Point × Point) : ℤ := e.1.1 * e.2.2 - e.2.1 * e.1.2

/-- Twice the signed polygon area of the closed contour. -/
def a00 (c : Contour) : ℤ := ((closedEdges c).map crossTerm).sum

/-- Green-theorem accumulator for the first-order x moment. -/
def a10 (c : Contour) : ℤ :=
  ((closedEdges c).map (fun e => crossTerm e * (e.1.1 + e.2.1))).sum

/-- Green-theorem accumulator for the first-order y moment. -/
def a01 (c : Contour) : ℤ :=
  ((closedEdges c).map (fun e => crossTerm e * (e.1.2 + e.2.2))).sum

/-- `cv2.moments(contour)["m00"]`: the absolute polygon area. -/
def m00 (c : Contour) : ℚ := (|a00 c| : ℤ) / 2

/-- `cv2.moments(contour)["m10"]`. -/
def m10 (c : Contour) : ℚ := ((a00 c).sign * a10 c : ℤ) / 6

/-- `cv2.moments(contour)["m01"]`. -/
def m01 (c : Contour) : ℚ := ((a00 c).sign * a01 c : ℤ) / 6

/-- `cv2.contourArea(contour)`: the absolute polygon area. -/
def contourArea (c : Contour) : ℚ := (|a00 c| : ℤ) / 2

/-- Squared Euclidean length of one edge. -/
def edgeLenSq (e : Point × Point) : ℤ := (e.1.1 - e.2.1) ^ 2 + (e.1.2 - e.2.2) ^ 2

/-- `cv2.arcLength(contour, True)`: total Euclidean length of the closed
polyline. -/
noncomputable def arcLength (c : Contour) : ℝ :=
  ((closedEdges c).map (fun e => Real.sqrt ((edgeLenSq e : ℤ) : ℝ))).sum

/-- One step of Python `max(contours, key=cv2.contourArea)`: the running
maximum is replaced only when the new element is strictly larger, so the
first maximal contour wins ties. -/
def pickLarger (acc x : Contour) : Contour :=
  if contourArea acc < contourArea x then x else acc

/-- `max(contours, key=cv2.contourArea)` (empty input yields the empty
contour; the caller never reaches it with an empty list). -/
def largest_contour (cs : List Contour) : Contour :=
  match cs with
  | [] => []
  | c :: rest => rest.foldl pickLarger c

/-- `calculate_centroid` from the contour-extraction point on: given the
external contours of the thresholded image, return
`(centroid, diameter, circularity)` with `centroid = None` (and `0, 0`)
when no contour exists or the largest contour has zero `m00`. -/
noncomputable def calculate_centroid (contours : List Contour) :
    Option (ℤ × ℤ) × ℝ × ℝ :=
  match contours with
  | [] => (none, 0, 0)
  | c :: rest =>
    let largest := rest.foldl pickLarger c
    if m00 largest ≠ 0 then
      let cx := pyInt (m10 largest / m00 largest)
      let cy := pyInt (m01 largest / m00 largest)
      let area := contourArea largest
      let diameter := Real.sqrt (4 * (area : ℝ) / Real.pi)
      let perimeter := arcLength largest
      let circularity := 4 * Real.pi * ((area : ℝ) / (perimeter * perimeter))
      (some (cx, cy), diameter, circularity)
    else (none, 0, 0)

/-! ## GUI / lifecycle state model (`DahengCameraGUI`)

State mirrors the instance fields and button enablement of the class; each
handler is a function from state (plus external inputs where the code reads
the device) to the successor state, the user-visible reports it emits
(messageboxes / console prints, in order), and the device calls it issues
(in order). External calls are modelled as succeeding; the except-branches
of the handlers are therefore not taken. -/

/-- Device/SDK side effects a handler issues, in order. -/
inductive DeviceCall
  | open_device
  | set_width (w : ℕ)
  | set_height (h : ℕ)
  | set_frame_rate (r : ℚ)
  | set_exposure (v : ℚ)
  | stream_on
  | stream_off
  | close_device
  | spawn_acquisition_thread
  | spawn_processing_thread
  deriving DecidableEq, Repr

/-- User-visible reports: messageboxes and console prints, with the dynamic
f-string messages carried as structured data. -/
inductive Report
  | info (msg : String)
  | warning (msg : String)
  | error (msg : String)
  | printed (msg : String)
  | info_exposure_set (v : ℚ)
  | printed_exposure_updated (v : ℚ)
  deriving DecidableEq, Repr

/-- The mutable fields of `DahengCameraGUI`: camera handles as presence
booleans (`self.cam is not None`), the streaming flag, the stored exposure,
the frame queue, and the enabled/disabled state of the five buttons. -/
structure GuiState where
  device_manager : Bool
  cam : Bool
  is_streaming : Bool
  current_exposure : ℚ
  frame_queue : List Frame
  btn_connect : Bool
  btn_start : Bool
  btn_stop : Bool
  btn_save : Bool
  btn_close : Bool
  deriving DecidableEq, Repr

/-- The state `__init__` establishes. -/
def initial_state : GuiState :=
  { device_manager := false
    cam := false
    is_streaming := false
    current_exposure := 10000
    frame_queue := []
    btn_connect := true
    btn_start := false
    btn_stop := false
    btn_save := false
    btn_close := false }

/-- The device-side facts `connect_camera` reads: how many devices exist and
which camera features are implemented and writable. -/
structure ConnectEnv where
  dev_num : ℕ
  resolution_settable : Bool
  frame_rate_settable : Bool
  exposure_settable : Bool
  deriving DecidableEq, Repr

/-- `connect_camera` (lines 72-107): builds a device manager, enumerates,
warns and returns when no camera exists, otherwise opens the first device,
best-effort configures resolution, frame rate and exposure, and flips the
buttons. There is no check of the current lifecycle state. -/
def connect_camera (s : GuiState) (env : ConnectEnv) :
    GuiState × List Report × List DeviceCall :=
  let s1 := { s with device_manager := true }
  if env.dev_num = 0 then
    (s1, [.warning "No cameras found."], [])
  else
    let resolution_part :
        List Report × List DeviceCall :=
      if env.resolution_settable then
        ([.info "Resolution set to 4096x3000"], [.set_width 4096, .set_height 3000])
      else
        ([.warning "Resolution control is not supported by this camera."], [])
    let frame_rate_part :
        List Report × List DeviceCall :=
      if env.frame_rate_settable then
        ([.info "Frame Rate Set to 1 FPS"], [.set_frame_rate 1])
      else
        ([.warning "Frame rate control is not supported by this camera."], [])
    let exposure_part :
        List Report × List DeviceCall :=
      if env.exposure_settable then
        ([.info_exposure_set s.current_exposure], [.set_exposure s.current_exposure])
      else
        ([.warning "Exposure time control is not supported by this camera."], [])
    ({ s1 with cam := true, btn_start := true, btn_connect := false, btn_close := true },
     resolution_part.1 ++ frame_rate_part.1 ++ exposure_part.1,
     DeviceCall.open_device ::
       (resolution_part.2 ++ frame_rate_part.2 ++ exposure_part.2))

/-- `start_acquisition` (lines 109-131): rejected with a warning exactly
when `self.cam is None`; otherwise streams on, sets the flag, flips the
buttons and spawns both worker threads. -/
def start_acquisition (s : GuiState) : GuiState × List Report × List DeviceCall :=
  if s.cam = false then
    (s, [.warning "Camera not connected."], [])
  else
    ({ s with is_streaming := true, btn_stop := true, btn_save := true, btn_start := false },
     [.info "Acquisition Started at 1 FPS (4096x3000)"],
     [.stream_on, .spawn_acquisition_thread, .spawn_processing_thread])

/-- `stop_acquisition` (lines 133-147): silently returns when no camera is
open or not streaming; otherwise streams off, clears the flag, flips the
buttons and clears the frame queue. -/
def stop_acquisition (s : GuiState) : GuiState × List Report × List DeviceCall :=
  if s.cam = false || s.is_streaming = false then
    (s, [], [])
  else
    ({ s with
        is_streaming := false
        btn_start := true
        btn_stop := false
        frame_queue := queue_clear s.frame_queue },
     [.info "Acquisition Stopped"], [.stream_off])

/-- `close_camera` (lines 266-283): does nothing when `self.cam is None`;
otherwise streams off if needed, closes the device, clears both handles and
the streaming flag, and resets the buttons. -/
def close_camera (s : GuiState) : GuiState × List Report × List DeviceCall :=
  if s.cam = false then
    (s, [], [])
  else
    ({ s with
        device_manager := false
        cam := false
        is_streaming := false
        btn_start := false
        btn_stop := false
        btn_save := false
        btn_close := false
        btn_connect := true },
     [.info "Camera closed."],
     (if s.is_streaming then [DeviceCall.stream_off] else []) ++ [.close_device])

/-- `update_exposure` (lines 203-211), the slider callback: only when a
camera is open and streaming does it store the value and write it to the
device; otherwise it does nothing at all. No clamping happens here — the
[1000, 100000] range is enforced upstream by the `Scale` widget bounds. -/
def update_exposure (s : GuiState) (value : ℚ) :
    GuiState × List Report × List DeviceCall :=
  if s.cam && s.is_streaming then
    ({ s with current_exposure := value },
     [.printed_exposure_updated value], [.set_exposure value])
  else
    (s, [], [])

/-! ## AcquisitionWorker (`acquire_frames`, lines 149-158) -/

/-- What one `get_image()` call yields: a complete frame, an incomplete
frame, or an exception with its message. -/
inductive AcqInput
  | frame_complete (f : Frame)
  | frame_incomplete
  | fault (msg : String)
  deriving DecidableEq, Repr

/-- One iteration of the `acquire_frames` loop body: an incomplete frame is
discarded (`continue`), a complete frame is put onto the queue (blocking
`put`, modelled as the eventual append), and an exception is printed while
the loop goes on. Returns the queue contents and the reports emitted. -/
def acquire_iteration (q : List Frame) (inp : AcqInput) : List Frame × List Report :=
  match inp with
  | .frame_incomplete => (q, [])
  | .frame_complete f => (q ++ [f], [])
  | .fault m => (q, [.printed m])

/-- The `while self.is_streaming` guard of `acquire_frames`: the loop runs
again exactly when the streaming flag still holds, no matter what the
previous iteration did. -/
def acquire_loop_runs (is_streaming : Bool) : Bool := is_streaming

/-- A reachable streaming state: the field values after a successful
`connect_camera` followed by `start_acquisition`. -/
def streaming_state : GuiState :=
  { device_manager := true
    cam := true
    is_streaming := true
    current_exposure := 10000
    frame_queue := []
    btn_connect := false
    btn_start := false
    btn_stop := true
    btn_save := true
    btn_close := true }

/-! ## Claims -/

/-- C1 fails as stated: the code truncates with Python `int`, it does not
round. At display centroid (3, 0) — inside [0,1280) x [0,720) — the code
computes native x = int(3 * 4096/1280) = int(9.6) = 9, while the claimed
`round(3 * 4096/1280)` is 10. -/
theorem C1_counterexample :
    rescale_centroid (3, 0) = (9, 0) ∧ rescale_centroid_spec (3, 0) = (10, 0) ∧
    rescale_centroid (3, 0) ≠ rescale_centroid_spec (3, 0) := by
  have h1 : rescale_centroid (3, 0) = (9, 0) := by
    unfold rescale_centroid pyInt scale_x scale_y
    norm_num
  have h2 : rescale_centroid_spec (3, 0) = (10, 0) := by
    unfold rescale_centroid_spec scale_x scale_y
    rw [round_eq, round_eq]
    norm_num
  refine ⟨h1, h2, ?_⟩
  rw [h1, h2]
  decide

/-- C1 (amended): for every integer display centroid (cx, cy) with cx in
[0,1280) and cy in [0,720), `process_frames` rescales by truncation, not
rounding: the native centroid is
(int(cx * 4096/1280), int(cy * 3000/720)) = (cx * 4096 / 1280, cy * 3000 / 720)
in integer (floor) division. -/
theorem C1_rescale_truncates (cx cy : ℤ) (hx0 : 0 ≤ cx) (hx : cx < 1280)
    (hy0 : 0 ≤ cy) (hy : cy < 720) :
    rescale_centroid (cx, cy) = (cx * 4096 / 1280, cy * 3000 / 720) := by
  have hsx : (0 : ℚ) ≤ (cx : ℚ) * scale_x :=
    mul_nonneg (by exact_mod_cast hx0) (by norm_num [scale_x])
  have hsy : (0 : ℚ) ≤ (cy : ℚ) * scale_y :=
    mul_nonneg (by exact_mod_cast hy0) (by norm_num [scale_y])
  have ex : (cx : ℚ) * scale_x = ((cx * 4096 : ℤ) : ℚ) / ((1280 : ℕ) : ℚ) := by
    push_cast [scale_x]; ring
  have ey : (cy : ℚ) * scale_y = ((cy * 3000 : ℤ) : ℚ) / ((720 : ℕ) : ℚ) := by
    push_cast [scale_y]; ring
  have px : pyInt ((cx : ℚ) * scale_x) = cx * 4096 / 1280 := by
    rw [pyInt, if_pos hsx, ex, Rat.floor_intCast_div_natCast]
    norm_num
  have py : pyInt ((cy : ℚ) * scale_y) = cy * 3000 / 720 := by
    rw [pyInt, if_pos hsy, ey, Rat.floor_intCast_div_natCast]
    norm_num
  simp [rescale_centroid, px, py]

/-- Witness for the amended C1 at the in-range display centroid (3, 1). -/
theorem C1_rescale_truncates_witness :
    ((0 : ℤ) ≤ 3 ∧ (3 : ℤ) < 1280 ∧ (0 : ℤ) ≤ 1 ∧ (1 : ℤ) < 720) ∧
    rescale_centroid (3, 1) = (3 * 4096 / 1280, 1 * 3000 / 720) :=
  ⟨by decide,
   C1_rescale_truncates 3 1 (by decide) (by decide) (by decide) (by decide)⟩

/-- C5 fails as stated: `update_exposure` does no clamping — while
streaming, SetExposure(500) stores 500, not the claimed lower bound 1000 —
and when not streaming the stored value is not updated at all (it stays at
its previous value 10000 instead of the requested 50000). -/
theorem C5_counterexample :
    (update_exposure streaming_state 500).1.current_exposure = 500 ∧
    (update_exposure initial_state 50000).1.current_exposure = 10000 := by
  decide

/-- C5 (amended): `update_exposure(value)` stores the raw value (no
clamping; the [1000, 100000] bounds are enforced upstream by the slider
widget) and writes it to the device, but only when a camera is open and
streaming; in every other state it is a complete no-op — no store and no
device write. -/
theorem C5_update_exposure_behavior (s : GuiState) (v : ℚ) :
    ((s.cam && s.is_streaming) = true →
      update_exposure s v =
        ({ s with current_exposure := v },
         [Report.printed_exposure_updated v], [DeviceCall.set_exposure v])) ∧
    ((s.cam && s.is_streaming) = false → update_exposure s v = (s, [], [])) := by
  constructor <;> intro h <;> simp [update_exposure, h]

/-- Witness for the amended C5: while streaming, 500 is stored raw; from
the initial (non-streaming) state the call is a no-op. -/
theorem C5_update_exposure_behavior_witness :
    (streaming_state.cam && streaming_state.is_streaming) = true ∧
    update_exposure streaming_state 500 =
      ({ streaming_state with current_exposure := 500 },
       [Report.printed_exposure_updated 500], [DeviceCall.set_exposure 500]) ∧
    (initial_state.cam && initial_state.is_streaming) = false ∧
    update_exposure initial_state 500 = (initial_state, [], []) :=
  ⟨by decide, (C5_update_exposure_behavior streaming_state 500).1 (by decide),
   by decide, (C5_update_exposure_behavior initial_state 500).2 (by decide)⟩

/-- C6: the frame queue is created with capacity 2; a `put` that succeeds
appends exactly the given frame and never exceeds the capacity; a `put` on
a full queue blocks (returns no successor — nothing is dropped); `clear()`
empties the queue, and a successful `stop_acquisition` leaves the queue
empty. -/
theorem C6_queue_invariants (q : List Frame) (f : Frame) (q' : List Frame)
    (s : GuiState) (h : q.length ≤ queue_maxsize) :
    queue_maxsize = 2 ∧
    (queue_push q f = some q' → q' = q ++ [f] ∧ q'.length ≤ queue_maxsize) ∧
    (q.length = queue_maxsize → queue_push q f = none) ∧
    queue_clear q = [] ∧
    (s.cam = true → s.is_streaming = true →
      (stop_acquisition s).1.frame_queue = []) := by
  refine ⟨rfl, ?_, ?_, rfl, ?_⟩
  · intro hpush
    unfold queue_push at hpush
    split at hpush
    · rename_i hlt
      injection hpush with hq'
      subst hq'
      refine ⟨rfl, ?_⟩
      simp only [queue_maxsize, List.length_append, List.length_cons,
        List.length_nil] at hlt ⊢
      omega
    · exact absurd hpush (by simp)
  · intro hfull
    unfold queue_push
    simp [hfull]
  · intro h1 h2
    simp [stop_acquisition, h1, h2, queue_clear]

/-- Witness for C6 at the one-element queue [3] with frame 7 and the
streaming state. -/
theorem C6_queue_invariants_witness :
    ([3] : List Frame).length ≤ queue_maxsize ∧
    (queue_maxsize = 2 ∧
     (queue_push [3] 7 = some [3, 7] → [3, 7] = [3] ++ [7] ∧
       ([3, 7] : List Frame).length ≤ queue_maxsize) ∧
     (([3] : List Frame).length = queue_maxsize → queue_push [3] 7 = none) ∧
     queue_clear [3] = [] ∧
     (streaming_state.cam = true → streaming_state.is_streaming = true →
       (stop_acquisition streaming_state).1.frame_queue = [])) :=
  ⟨by decide, C6_queue_invariants [3] 7 [3, 7] streaming_state (by decide)⟩

/-- C7 fails as stated: invoked while Streaming (a state other than
Connected or Stopped), `start_acquisition` is not rejected — it reports the
success messagebox, streams the device on again and spawns fresh worker
threads; and `connect_camera` invoked from a connected, streaming state
still proceeds to open a device (no precondition error either). -/
theorem C7_counterexample :
    (start_acquisition streaming_state).2 =
      ([Report.info "Acquisition Started at 1 FPS (4096x3000)"],
       [DeviceCall.stream_on, DeviceCall.spawn_acquisition_thread,
        DeviceCall.spawn_processing_thread]) ∧
    (connect_camera streaming_state ⟨1, true, true, true⟩).2 =
      ([Report.info "Resolution set to 4096x3000",
        Report.info "Frame Rate Set to 1 FPS",
        Report.info_exposure_set 10000],
       [DeviceCall.open_device, DeviceCall.set_width 4096,
        DeviceCall.set_height 3000, DeviceCall.set_frame_rate 1,
        DeviceCall.set_exposure 10000]) := by decide

/-- C7 (amended): `start_acquisition` is rejected — warning, no state
change, no device call — exactly when no camera is open (`self.cam is
None`, i.e. Idle or Closed); with a camera open it proceeds even from
Streaming. `connect_camera` performs no lifecycle-state check at all: its
reports and device calls depend on the prior state only through the stored
exposure value (the UI merely disables the buttons of inapplicable
commands). -/
theorem C7_start_connect_guards (s t : GuiState) (env : ConnectEnv)
    (hexp : s.current_exposure = t.current_exposure) :
    (s.cam = false →
      start_acquisition s = (s, [Report.warning "Camera not connected."], [])) ∧
    (s.cam = true →
      (start_acquisition s).2 =
        ([Report.info "Acquisition Started at 1 FPS (4096x3000)"],
         [DeviceCall.stream_on, DeviceCall.spawn_acquisition_thread,
          DeviceCall.spawn_processing_thread])) ∧
    (connect_camera s env).2 = (connect_camera t env).2 := by
  refine ⟨fun h => by simp [start_acquisition, h],
          fun h => by simp [start_acquisition, h], ?_⟩
  unfold connect_camera
  rw [hexp]
  by_cases hn : env.dev_num = 0 <;> simp [hn]

/-- Witness for the amended C7: rejection from the initial (Idle) state,
acceptance from the streaming state, and connect output depending only on
the stored exposure. -/
theorem C7_start_connect_guards_witness :
    (streaming_state.current_exposure = initial_state.current_exposure) ∧
    ((streaming_state.cam = false →
       start_acquisition streaming_state =
         (streaming_state, [Report.warning "Camera not connected."], [])) ∧
     (streaming_state.cam = true →
       (start_acquisition streaming_state).2 =
         ([Report.info "Acquisition Started at 1 FPS (4096x3000)"],
          [DeviceCall.stream_on, DeviceCall.spawn_acquisition_thread,
           DeviceCall.spawn_processing_thread])) ∧
     (connect_camera streaming_state ⟨1, true, true, true⟩).2 =
       (connect_camera initial_state ⟨1, true, true, true⟩).2) :=
  ⟨by decide,
   C7_start_connect_guards streaming_state initial_state ⟨1, true, true, true⟩
     (by decide)⟩

/-- C8: `stop_acquisition` and `close_camera` are idempotent — from any
state where the first invocation passes its guard, invoking the operation a
second time raises no report and no device call and leaves the state
exactly as the first invocation left it. -/
theorem C8_stop_close_idempotent (s t : GuiState) :
    (s.cam = true → s.is_streaming = true →
      stop_acquisition (stop_acquisition s).1 = ((stop_acquisition s).1, [], [])) ∧
    (t.cam = true →
      close_camera (close_camera t).1 = ((close_camera t).1, [], [])) := by
  constructor
  · intro h1 h2
    simp [stop_acquisition, queue_clear, h1, h2]
  · intro h
    simp [close_camera, h]

/-- Witness for C8 at the streaming state (both guards pass there). -/
theorem C8_stop_close_idempotent_witness :
    (streaming_state.cam = true ∧ streaming_state.is_streaming = true) ∧
    stop_acquisition (stop_acquisition streaming_state).1 =
      ((stop_acquisition streaming_state).1, [], []) ∧
    close_camera (close_camera streaming_state).1 =
      ((close_camera streaming_state).1, [], []) :=
  ⟨by decide,
   (C8_stop_close_idempotent streaming_state streaming_state).1 rfl rfl,
   (C8_stop_close_idempotent streaming_state streaming_state).2 rfl⟩

/-- C9: in each iteration of the `acquire_frames` loop, an incomplete frame
is discarded — no push, no report; a complete frame is appended to the
queue; any other fault is printed to the error sink and nothing else
changes; and whether the loop runs again depends only on the streaming
flag, so no fault terminates it while the flag holds. -/
theorem C9_acquire_iteration_behavior (q : List Frame) (f : Frame) (m : String) :
    acquire_iteration q AcqInput.frame_incomplete = (q, []) ∧
    acquire_iteration q (AcqInput.frame_complete f) = (q ++ [f], []) ∧
    acquire_iteration q (AcqInput.fault m) = (q, [Report.printed m]) ∧
    acquire_loop_runs true = true ∧ acquire_loop_runs false = false :=
  ⟨rfl, rfl, rfl, rfl, rfl⟩

/-- A concrete triangular contour with vertices (0,0), (4,0), (0,4). -/
def tri3 : Contour := [(0, 0), (4, 0), (0, 4)]

/-- Green accumulator of the concrete triangle. -/
lemma a00_tri3 : a00 tri3 = 16 := by decide

/-- Zeroth moment of the concrete triangle. -/
lemma m00_tri3 : m00 tri3 = 8 := by
  rw [m00, a00_tri3]
  norm_num

/-- An edge of zero squared length joins equal points, so its cross term
vanishes. -/
lemma crossTerm_eq_zero_of_edgeLenSq_eq_zero (e : Point × Point)
    (h : edgeLenSq e = 0) : crossTerm e = 0 := by
  unfold edgeLenSq at h
  have h1 : e.1.1 = e.2.1 := by
    nlinarith [sq_nonneg (e.1.1 - e.2.1), sq_nonneg (e.1.2 - e.2.2)]
  have h2 : e.1.2 = e.2.2 := by
    nlinarith [sq_nonneg (e.1.1 - e.2.1), sq_nonneg (e.1.2 - e.2.2)]
  unfold crossTerm
  rw [h1, h2]
  ring

/-- C2: `calculate_centroid` never divides by zero — whenever the zeroth
moment of the selected boundary is nonzero, the circularity divisor
`perimeter * perimeter` is nonzero as well: a contour whose closed polyline
has zero total length has all points equal, hence zero signed area and zero
m00. -/
theorem C2_circularity_divisor_nonzero (c : Contour) (h : m00 c ≠ 0) :
    arcLength c * arcLength c ≠ 0 := by
  have ha : a00 c ≠ 0 := by
    intro h0
    apply h
    unfold m00
    rw [h0]
    norm_num
  have hex : ∃ e ∈ closedEdges c, crossTerm e ≠ 0 := by
    by_contra hall
    push_neg at hall
    apply ha
    unfold a00
    refine List.sum_eq_zero ?_
    intro x hx
    rcases List.mem_map.mp hx with ⟨e, he, rfl⟩
    exact hall e he
  obtain ⟨e, he, hce⟩ := hex
  have hlen : (0 : ℝ) < ((edgeLenSq e : ℤ) : ℝ) := by
    have hnz : edgeLenSq e ≠ 0 := fun h0 =>
      hce (crossTerm_eq_zero_of_edgeLenSq_eq_zero e h0)
    have hnn : 0 ≤ edgeLenSq e := by unfold edgeLenSq; positivity
    have hpos : 0 < edgeLenSq e := lt_of_le_of_ne hnn (Ne.symm hnz)
    exact_mod_cast hpos
  have hsqrt : 0 < Real.sqrt ((edgeLenSq e : ℤ) : ℝ) := Real.sqrt_pos.mpr hlen
  have hmem : Real.sqrt ((edgeLenSq e : ℤ) : ℝ) ∈
      (closedEdges c).map (fun e => Real.sqrt ((edgeLenSq e : ℤ) : ℝ)) :=
    List.mem_map_of_mem _ he
  have hpos : 0 < arcLength c := by
    unfold arcLength
    refine lt_of_lt_of_le hsqrt (List.single_le_sum ?_ _ hmem)
    intro x hx
    rcases List.mem_map.mp hx with ⟨e', _, rfl⟩
    exact Real.sqrt_nonneg _
  exact mul_ne_zero (ne_of_gt hpos) (ne_of_gt hpos)

/-- Witness for C2 at the concrete triangle. -/
theorem C2_circularity_divisor_nonzero_witness :
    m00 tri3 ≠ 0 ∧ arcLength tri3 * arcLength tri3 ≠ 0 :=
  ⟨by rw [m00_tri3]; norm_num,
   C2_circularity_divisor_nonzero tri3 (by rw [m00_tri3]; norm_num)⟩

/-- C3: the detector reports "not found" (a `None` centroid) exactly when
the contour list is empty or the largest-area contour has zero m00; in
every other case the centroid component is present (together with the
diameter and circularity components the triple always carries). -/
theorem C3_not_found_iff (cs : List Contour) :
    (calculate_centroid cs).1 = none ↔
      cs = [] ∨ m00 (largest_contour cs) = 0 := by
  cases cs with
  | nil => simp [calculate_centroid]
  | cons c rest =>
    simp only [calculate_centroid, largest_contour]
    by_cases h : m00 (rest.foldl pickLarger c) = 0
    · simp [h]
    · simp [h]

/-- C4: whenever the detector finds an object (some contour exists and the
largest one has nonzero m00), it returns exactly the centroid
(m10/m00, m01/m00) truncated to integers, the equivalent-circle diameter
sqrt(4 area / pi), and the circularity 4 pi area / perimeter^2, all taken
on the largest-area contour. -/
theorem C4_found_formulas (cs : List Contour) (hne : cs ≠ [])
    (h : m00 (largest_contour cs) ≠ 0) :
    calculate_centroid cs =
      (some (pyInt (m10 (largest_contour cs) / m00 (largest_contour cs)),
             pyInt (m01 (largest_contour cs) / m00 (largest_contour cs))),
       Real.sqrt (4 * (contourArea (largest_contour cs) : ℝ) / Real.pi),
       4 * Real.pi * (contourArea (largest_contour cs) : ℝ) /
         arcLength (largest_contour cs) ^ 2) := by
  cases cs with
  | nil => exact absurd rfl hne
  | cons c rest =>
    simp only [largest_contour] at h ⊢
    simp only [calculate_centroid]
    rw [if_pos h]
    refine congrArg₂ Prod.mk rfl (congrArg₂ Prod.mk rfl ?_)
    ring

/-- Witness for C4 at the concrete triangle: its centroid (4/3, 4/3)
truncates to (1, 1). -/
theorem C4_found_formulas_witness :
    (([tri3] : List Contour) ≠ [] ∧ m00 (largest_contour [tri3]) ≠ 0) ∧
    calculate_centroid [tri3] =
      (some (pyInt (m10 (largest_contour [tri3]) / m00 (largest_contour [tri3])),
             pyInt (m01 (largest_contour [tri3]) / m00 (largest_contour [tri3]))),
       Real.sqrt (4 * (contourArea (largest_contour [tri3]) : ℝ) / Real.pi),
       4 * Real.pi * (contourArea (largest_contour [tri3]) : ℝ) /
         arcLength (largest_contour [tri3]) ^ 2) :=
  ⟨⟨by decide, by show m00 tri3 ≠ 0; rw [m00_tri3]; norm_num⟩,
   C4_found_formulas [tri3] (by decide)
     (by show m00 tri3 ≠ 0; rw [m00_tri3]; norm_num)⟩

/-- C10: the "not found" result at the public interface is concretely the
triple (None, 0, 0) — whenever the centroid component is `None` the other
two components are the numbers 0 and 0 — and the caller (`process_frames`)
distinguishes the found case solely by the centroid being non-`None`:
native coordinates are produced exactly for a non-`None` centroid. -/
theorem C10_not_found_triple (cs : List Contour) (c : Option (ℤ × ℤ))
    (h : (calculate_centroid cs).1 = none) :
    calculate_centroid cs = (none, 0, 0) ∧
      (native_centroid c = none ↔ c = none) := by
  constructor
  · cases cs with
    | nil => rfl
    | cons c0 rest =>
      simp only [calculate_centroid] at h ⊢
      by_cases hm : m00 (rest.foldl pickLarger c0) = 0
      · simp [hm]
      · simp [hm] at h
  · cases c <;> simp [native_centroid]

/-- Witness for C10 at the empty contour list and a sample found centroid. -/
theorem C10_not_found_triple_witness :
    (calculate_centroid ([] : List Contour)).1 = none ∧
    (calculate_centroid ([] : List Contour) = (none, 0, 0) ∧
      (native_centroid (some (640, 360)) = none ↔
        (some (640, 360) : Option (ℤ × ℤ)) = none)) :=
  ⟨rfl, C10_not_found_triple [] (some (640, 360)) rfl⟩
